import Mathlib

/-!
Verification of the spec of the aiadventure API against a shallow embedding
of its Python sources (app/database.py, app/services/*.py, app/routers/*.py).

The document store is modelled as an association list from id strings to
documents; Mongo point operations (find_one, update_one with push or set,
delete_one, insert_one) become first-match list operations.  External
collaborators (JWT decoding, SHA-256 digests, the story generator, clocks)
are parameters of the embedded functions, mirroring the boundary drawn in
the spec.
-/

namespace AIAdventure

/-- Hexadecimal digit test used by the ObjectId validity check. -/
def isHexChar (c : Char) : Bool :=
  c.isDigit || (97 ≤ c.toNat && c.toNat ≤ 102) || (65 ≤ c.toNat && c.toNat ≤ 70)

/-- Embeds bson ObjectId.is_valid on string input: valid ids are exactly the
24-character hexadecimal strings. -/
def ObjectId_is_valid (s : String) : Bool :=
  s.length == 24 && s.toList.all isHexChar

/-- User document (users collection), restricted to the fields the verified
operations read.  database.get_user_by_id strips hashed_password before
returning, so the password digest never reaches the embedded callers. -/
structure UserDoc where
  email : String
  role : String
deriving DecidableEq

/-- The users collection: first-match association list keyed by id string. -/
abbrev UserStore := List (String × UserDoc)

/-- First-match lookup, the model of find_one on the users collection. -/
def find_user : UserStore → String → Option UserDoc
  | [], _ => none
  | (k, u) :: rest, uid => if k == uid then some u else find_user rest uid

/-- Embeds database.get_user_by_id: reject malformed ids, then point lookup. -/
def get_user_by_id (users : UserStore) (uid : String) : Option UserDoc :=
  if ObjectId_is_valid uid then find_user users uid else none

/-- Embeds user_service.is_user_admin: true iff the user record exists and its
role field equals admin; any lookup failure resolves to false. -/
def is_user_admin (users : UserStore) (uid : String) : Bool :=
  match get_user_by_id users uid with
  | some u => u.role == "admin"
  | none => false

/-- One story node as stored inline in an adventure document.  Nodes written
by the continue path carry no createdAt key, hence the optional field. -/
structure Node where
  createdAt : Option Nat
  prev_option_index : Option Int
  prev_option_text : Option String
  text : String
  options : List String
deriving DecidableEq

/-- Placeholder node used only as the default of List.getD at positions that
are proved in range. -/
def defaultNode : Node :=
  { createdAt := none, prev_option_index := none, prev_option_text := none,
    text := "", options := [] }

/-- Adventure document (adventures collection).  Documents created by the
start path carry no is_public key, which the access check reads as false;
the model makes that an explicit Bool. -/
structure Adventure where
  owner_id : String
  title : String
  synopsis : String
  userPrompt : String
  createdAt : Nat
  perspective : String
  max_levels : Nat
  min_words_per_level : Nat
  max_words_per_level : Nat
  is_public : Bool
  image_s3_bucket : Option String
  image_s3_key : Option String
  clone_of : Option String
  nodes : List Node
deriving DecidableEq

/-- The adventures collection: first-match association list keyed by id. -/
abbrev AdvStore := List (String × Adventure)

/-- First-match lookup, the model of find_one on the adventures collection. -/
def find_adventure : AdvStore → String → Option Adventure
  | [], _ => none
  | (k, a) :: rest, aid => if k == aid then some a else find_adventure rest aid

/-- Embeds database.get_adventure_by_id: reject malformed ids, then lookup. -/
def get_adventure_by_id (store : AdvStore) (aid : String) : Option Adventure :=
  if ObjectId_is_valid aid then find_adventure store aid else none

/-- Model of update_one on the adventures collection: rewrite the first
document whose id matches, leave everything else in place. -/
def modify_adventure (store : AdvStore) (aid : String) (f : Adventure → Adventure) : AdvStore :=
  match store with
  | [] => []
  | (k, a) :: rest =>
      if k == aid then (k, f a) :: rest
      else (k, a) :: modify_adventure rest aid f

/-- Embeds database.update_adventure_nodes: reject malformed ids (the raised
ValueError is swallowed, leaving the store unchanged), otherwise push the
node onto the end of the nodes array of the matching document. -/
def update_adventure_nodes (store : AdvStore) (aid : String) (node : Node) : AdvStore :=
  if ObjectId_is_valid aid then
    modify_adventure store aid (fun a => { a with nodes := a.nodes ++ [node] })
  else store

/-- Embeds database.truncate_adventure: malformed ids and negative indices
raise (the exception is swallowed, leaving the store unchanged); otherwise
the document is re-read and its nodes array is replaced by the prefix of
length node_index. -/
def truncate_adventure (store : AdvStore) (aid : String) (node_index : Int) : AdvStore :=
  if !ObjectId_is_valid aid then store
  else if node_index < 0 then store
  else
    match get_adventure_by_id store aid with
    | none => store
    | some doc =>
        modify_adventure store aid
          (fun a => { a with nodes := doc.nodes.take node_index.toNat })

/-- Model of delete_one on the adventures collection: drop the first
document whose id matches. -/
def remove_adventure : AdvStore → String → AdvStore
  | [], _ => []
  | (k, a) :: rest, aid => if k == aid then rest else (k, a) :: remove_adventure rest aid

/-- Embeds database.delete_adventure: reject malformed ids (exception
swallowed, store unchanged), otherwise delete the matching document. -/
def delete_adventure (store : AdvStore) (aid : String) : AdvStore :=
  if ObjectId_is_valid aid then remove_adventure store aid else store

/-- Model of insert_one on the adventures collection; the store generates a
fresh id, which the embedding receives as the newId argument. -/
def insert_adventure (store : AdvStore) (newId : String) (adventure : Adventure) : AdvStore :=
  store ++ [(newId, adventure)]

/-- The body of database.create_adventure reads the bare module-level name
adventure_collection; app/database.py defines no such global (only the
function get_adventure_collection), so the name lookup is empty and every
call raises NameError before touching the store.  The empty Option records
that missing module attribute. -/
def adventure_collection_module_global : Option Unit := none

/-- Embeds database.create_adventure: its body dereferences the undefined
module global adventure_collection, so it raises NameError; the insert on
the right of the match is the dead code that would otherwise run. -/
def create_adventure (store : AdvStore) (newId : String) (adventure : Adventure) :
    Except String (String × AdvStore) :=
  match adventure_collection_module_global with
  | none => .error "NameError: name adventure_collection is not defined"
  | some _ => .ok (newId, insert_adventure store newId adventure)

/-- Three-way result of the ownership check, mirroring the sentinel values
404 and 401 and the returned adventure dict. -/
inductive AccessResult where
  | notFound
  | forbidden
  | ok (adventure : Adventure)
deriving DecidableEq

/-- Embeds adventure_service.get_adventure_for_user: 404 when no document
matches the id, the adventure for admins, 401 when the document is neither
public nor owned by the caller, and the adventure otherwise. -/
def get_adventure_for_user (store : AdvStore) (users : UserStore)
    (adventure_id user_id : String) : AccessResult :=
  match get_adventure_by_id store adventure_id with
  | none => .notFound
  | some adventure =>
      if is_user_admin users user_id then .ok adventure
      else if !adventure.is_public && adventure.owner_id != user_id then .forbidden
      else .ok adventure

/-- Result of the delete endpoint of routers/adventure.py. -/
inductive DeleteResult where
  | notFound
  | unauthorized
  | deleted (adventure_id : String)
deriving DecidableEq

/-- Embeds routers/adventure.py adventure_delete: resolve the ownership
check, then additionally require the caller to be the literal owner before
deleting; the uid argument is the decoded token subject. -/
def adventure_delete (store : AdvStore) (users : UserStore) (aid uid : String) :
    DeleteResult × AdvStore :=
  match get_adventure_for_user store users aid uid with
  | .notFound => (.notFound, store)
  | .forbidden => (.unauthorized, store)
  | .ok adventure =>
      if uid != adventure.owner_id then (.unauthorized, store)
      else (.deleted aid, delete_adventure store aid)

/-- Result of the truncate endpoint of routers/adventure.py. -/
inductive TruncateResult where
  | notFound
  | unauthorized
  | truncated (adventure_id : String)
deriving DecidableEq

/-- Embeds routers/adventure.py adventure_truncate: same owner gating as
delete, then the truncate store operation. -/
def adventure_truncate (store : AdvStore) (users : UserStore) (aid uid : String)
    (node_index : Int) : TruncateResult × AdvStore :=
  match get_adventure_for_user store users aid uid with
  | .notFound => (.notFound, store)
  | .forbidden => (.unauthorized, store)
  | .ok adventure =>
      if uid != adventure.owner_id then (.unauthorized, store)
      else (.truncated aid, truncate_adventure store aid node_index)

/-- Result of the continue endpoint of routers/adventure.py. -/
inductive ContinueResult where
  | notFound
  | unauthorized
  | nodeOutOfRange (idx : Int)
  | optionOutOfRange (idx : Int)
  | ok (adventure_id : String) (node_index : Int)
deriving DecidableEq

/-- Embeds routers/adventure.py continue_adventure together with the node
construction of adventure_service.generate_new_node: ownership check, the
two range validations, then one push of the freshly generated node whose
prev_option_text is the literal text of the chosen option and whose
prev_option_index is the selected index.  The story generator is external;
its structured output for this call is the gen argument (text, options). -/
def continue_adventure (store : AdvStore) (users : UserStore)
    (gen : String × List String) (aid uid : String)
    (start_from_node_id selected_option : Int) : ContinueResult × AdvStore :=
  match get_adventure_for_user store users aid uid with
  | .notFound => (.notFound, store)
  | .forbidden => (.unauthorized, store)
  | .ok adventure =>
      if (adventure.nodes.length : Int) < start_from_node_id + 1 ∨ start_from_node_id < 0 then
        (.nodeOutOfRange start_from_node_id, store)
      else
        let startNode := adventure.nodes.getD start_from_node_id.toNat defaultNode
        if (startNode.options.length : Int) < selected_option + 1 ∨ selected_option < 0 then
          (.optionOutOfRange selected_option, store)
        else
          let selected_option_text := startNode.options.getD selected_option.toNat ""
          let node : Node :=
            { createdAt := none
              prev_option_index := some selected_option
              prev_option_text := some selected_option_text
              text := gen.1
              options := gen.2 }
          (.ok aid (start_from_node_id + 1), update_adventure_nodes store aid node)

/-- Structured output of the story generator for a new story. -/
structure NewStory where
  title : String
  synopsis : String
  text : String
  options : List String
deriving DecidableEq

/-- Embeds the persistence steps of routers/adventure.py start_adventure on
the no-cover-image path (the cover branch only adds image fields): insert
the adventure document with an empty nodes array, then push the first node
with prev_option_index and prev_option_text both absent.  The generated
story is a parameter; the store-issued id arrives as newId. -/
def start_adventure (store : AdvStore) (uid newId : String) (story : NewStory)
    (prompt perspective : String) (max_levels min_words max_words now : Nat) :
    String × AdvStore :=
  let adventure : Adventure :=
    { owner_id := uid
      title := story.title
      synopsis := story.synopsis
      userPrompt := prompt
      createdAt := now
      perspective := perspective
      max_levels := max_levels
      min_words_per_level := min_words
      max_words_per_level := max_words
      is_public := false
      image_s3_bucket := none
      image_s3_key := none
      clone_of := none
      nodes := [] }
  let store1 := insert_adventure store newId adventure
  let node0 : Node :=
    { createdAt := some now, prev_option_index := none, prev_option_text := none,
      text := story.text, options := story.options }
  (newId, update_adventure_nodes store1 newId node0)

/-- One continuation request: the start node index, the selected option and
the structured generator output used for the produced node. -/
structure ContStep where
  start_from : Int
  selected : Int
  gen : String × List String
deriving DecidableEq

/-- Placeholder step used only as the default of List.getD at positions that
are proved in range. -/
def defaultStep : ContStep := { start_from := 0, selected := 0, gen := ("", []) }

/-- Runs a sequence of continue calls; some final store when every call
returned ok, none as soon as one call fails. -/
def run_continuations (users : UserStore) (aid uid : String) :
    AdvStore → List ContStep → Option AdvStore
  | store, [] => some store
  | store, s :: rest =>
      match continue_adventure store users s.gen aid uid s.start_from s.selected with
      | (.ok _ _, store1) => run_continuations users aid uid store1 rest
      | _ => none

/-- Outcome of adventure_service.clone_adventure; the service signals the
first two cases by raising, and any exception escaping the create step is
the unhandled case. -/
inductive CloneOutcome where
  | adventureNotFound
  | notAuthorized
  | unhandledException (msg : String)
  | ok (adventure_id : String)
deriving DecidableEq

/-- Node copy built inside the clone loop: fresh createdAt, same prev option
fields, text and options. -/
def clone_node (node : Node) (now : Nat) : Node :=
  { createdAt := some now
    prev_option_index := node.prev_option_index
    prev_option_text := node.prev_option_text
    text := node.text
    options := node.options }

/-- Adventure document built by clone_adventure before any node is copied:
owner is the acting identity, the title gains the copy marker, synopsis,
prompt, perspective and word bounds are copied, clone_of points back to the
source, the nodes array starts empty, and image fields come along only when
both are present; no is_public key is written, which reads as false. -/
def cloned_adventure_doc (A : Adventure) (uid aid : String) (now : Nat) : Adventure :=
  { owner_id := uid
    title := "(copy) " ++ A.title
    synopsis := A.synopsis
    userPrompt := A.userPrompt
    createdAt := now
    perspective := A.perspective
    max_levels := A.max_levels
    min_words_per_level := A.min_words_per_level
    max_words_per_level := A.max_words_per_level
    is_public := false
    image_s3_bucket :=
      if A.image_s3_bucket.isSome && A.image_s3_key.isSome then A.image_s3_bucket else none
    image_s3_key :=
      if A.image_s3_bucket.isSome && A.image_s3_key.isSome then A.image_s3_key else none
    clone_of := some aid
    nodes := [] }

/-- Embeds adventure_service.clone_adventure: ownership check, then
database.create_adventure for the copied document, then one push per source
node.  Because create_adventure raises NameError on every call, the create
match never reaches its ok branch. -/
def clone_adventure (store : AdvStore) (users : UserStore) (aid uid newId : String)
    (now : Nat) : CloneOutcome × AdvStore :=
  match get_adventure_for_user store users aid uid with
  | .notFound => (.adventureNotFound, store)
  | .forbidden => (.notAuthorized, store)
  | .ok A =>
      match create_adventure store newId (cloned_adventure_doc A uid aid now) with
      | .error msg => (.unhandledException msg, store)
      | .ok (rid, store1) =>
          let store2 := A.nodes.foldl
            (fun st node => update_adventure_nodes st rid (clone_node node now)) store1
          (.ok rid, store2)

/-- Character-list core of the str.startswith test. -/
def leadChars : List Char → List Char → Bool
  | [], _ => true
  | _ :: _, [] => false
  | c :: cs, d :: ds => c == d && leadChars cs ds

/-- Executable model of str.startswith, used for the fixed credential
markers ak_ and eyJ. -/
def startsWithMarker (s marker : String) : Bool :=
  leadChars marker.toList s.toList

/-- API key document (api_keys collection): the plaintext secret is never
stored, only its digest. -/
structure APIKeyDoc where
  id : String
  name : String
  key_hash : String
  scopes : List String
  expires_at : Option Nat
  created_at : Nat
  is_active : Bool
  last_used : Option Nat
deriving DecidableEq

/-- The four explicit rejection reasons of api_key_service.verify_api_key. -/
inductive VerifyError where
  | invalidFormat
  | invalidKey
  | inactive
  | expired
deriving DecidableEq

/-- Exception message attached to each rejection reason in the source. -/
def VerifyError.message : VerifyError → String
  | .invalidFormat => "Invalid API key format"
  | .invalidKey => "Invalid API key"
  | .inactive => "API key is inactive"
  | .expired => "API key expired"

/-- Metadata dict returned by a successful verification. -/
structure KeyInfo where
  key_id : String
  name : String
  scopes : List String
  created_at : Nat
  expires_at : Option Nat
deriving DecidableEq

/-- Outcome of the awaited last_used update_one call: the store either
returns a result (whose modified count the source never inspects) or raises,
in which case the exception propagates out of verify_api_key. -/
inductive UpdateOutcome where
  | completed (modified : Bool)
  | raises (msg : String)
deriving DecidableEq

/-- Result of verify_api_key: an explicit rejection, a propagated exception
from the last_used update, or the metadata dict. -/
inductive VerifyResult where
  | failure (e : VerifyError)
  | updateException (msg : String)
  | success (info : KeyInfo)
deriving DecidableEq

/-- Model of find_one by key_hash on the api_keys collection. -/
def find_by_hash : List APIKeyDoc → String → Option APIKeyDoc
  | [], _ => none
  | k :: rest, h => if k.key_hash == h then some k else find_by_hash rest h

/-- Embeds the expiry test of verify_api_key: the expires_at key must be
present (truthy) and strictly in the past. -/
def is_expired_at (expires_at : Option Nat) (now : Nat) : Bool :=
  match expires_at with
  | some t => decide (t < now)
  | none => false

/-- Embeds api_key_service.verify_api_key: shape check on the fixed ak_
marker, digest lookup, is_active check, expiry check, then the awaited
last_used update followed by the metadata dict.  The digest function and
current time are external parameters. -/
def verify_api_key (digest : String → String) (keys : List APIKeyDoc) (now : Nat)
    (upd : UpdateOutcome) (api_key : String) : VerifyResult :=
  if !startsWithMarker api_key "ak_" then .failure .invalidFormat
  else
    match find_by_hash keys (digest api_key) with
    | none => .failure .invalidKey
    | some key_data =>
        if !key_data.is_active then .failure .inactive
        else if is_expired_at key_data.expires_at now then .failure .expired
        else
          match upd with
          | .raises msg => .updateException msg
          | .completed _ =>
              .success
                { key_id := key_data.id
                  name := key_data.name
                  scopes := key_data.scopes
                  created_at := key_data.created_at
                  expires_at := key_data.expires_at }

/-- Value produced by auth_service.get_current_user_or_api_key: a user
principal, an api key principal, or an HTTPException with its status. -/
inductive AuthResult where
  | user (id : String)
  | apiKey (info : KeyInfo)
  | httpError (status : Nat) (detail : String)
deriving DecidableEq

/-- The tail of the credential dispatch, reached when the token does not
carry the signed-token marker or its decode raised: try the opaque-key
shape, wrapping any verification failure in a 401, and fall through to the
final 401 when neither shape matches. -/
def auth_non_jwt_branch (digest : String → String) (keys : List APIKeyDoc) (now : Nat)
    (upd : UpdateOutcome) (token : String) : AuthResult :=
  if startsWithMarker token "ak_" then
    match verify_api_key digest keys now upd token with
    | .success info => .apiKey info
    | .failure e => .httpError 401 ("Invalid API key: " ++ e.message)
    | .updateException msg => .httpError 401 ("Invalid API key: " ++ msg)
  else .httpError 401 "Invalid authentication token or API key"

/-- The body of the outer try block of get_current_user_or_api_key: tokens
with the signed-token marker are decoded (jwtSub none models a raising
decode, which the inner except swallows), then the opaque-key path runs. -/
def get_current_user_or_api_key_body (jwtSub : String → Option String)
    (digest : String → String) (keys : List APIKeyDoc) (now : Nat)
    (upd : UpdateOutcome) (token : String) : AuthResult :=
  if startsWithMarker token "eyJ" then
    match jwtSub token with
    | some uid => .user uid
    | none => auth_non_jwt_branch digest keys now upd token
  else auth_non_jwt_branch digest keys now upd token

/-- Embeds auth_service.get_current_user_or_api_key.  The whole body sits in
a try block whose generic except Exception handler also catches the
HTTPExceptions raised inside and re-raises them as a 500 whose detail wraps
the stringified original (status colon detail). -/
def get_current_user_or_api_key (jwtSub : String → Option String)
    (digest : String → String) (keys : List APIKeyDoc) (now : Nat)
    (upd : UpdateOutcome) (token : String) : AuthResult :=
  match get_current_user_or_api_key_body jwtSub digest keys now upd token with
  | .httpError s d => .httpError 500 ("Authentication error: " ++ toString s ++ ": " ++ d)
  | ok => ok

/-- routers/admin.py delete_user_admin resolves the helper us.delete_user at
call time; app/services/user_service.py defines no delete_user, so the
attribute lookup is empty and the call raises AttributeError.  The empty
Option records that missing module attribute. -/
def user_service_delete_user : Option (UserStore → String → Bool × UserStore) := none

/-- Result of the admin delete-user endpoint. -/
inductive AdminDeleteUserResult where
  | selfDeletionError
  | userNotFound
  | internalError (detail : String)
  | deleted (user_id : String) (email : String)
deriving DecidableEq

/-- Embeds routers/admin.py delete_user_admin: self-deletion guard, target
existence check, then the call to the undefined user_service.delete_user;
the raised AttributeError falls into the generic except branch, which
surfaces a 500 after touching nothing in the store. -/
def delete_user_admin (users : UserStore) (target_user_id admin_id : String) :
    AdminDeleteUserResult × UserStore :=
  if target_user_id == admin_id then (.selfDeletionError, users)
  else
    match get_user_by_id users target_user_id with
    | none => (.userNotFound, users)
    | some u =>
        match user_service_delete_user with
        | none =>
            (.internalError
              "Failed to delete user: module app.services.user_service has no attribute delete_user",
             users)
        | some f =>
            let res := f users target_user_id
            if !res.1 then (.internalError "Failed to delete user", res.2)
            else (.deleted target_user_id u.email, res.2)

/-!
Concrete documents used by closed evaluations.
-/

/-- Concrete adventure id (24 hexadecimal characters). -/
def demoAdventureId : String := "507f1f77bcf86cd799439011"

/-- Concrete id of the adventure owner. -/
def demoOwnerId : String := "aaaaaaaaaaaaaaaaaaaaaaaa"

/-- Concrete id of an admin user distinct from the owner. -/
def demoAdminId : String := "bbbbbbbbbbbbbbbbbbbbbbbb"

/-- Concrete id used as the store-issued id of a clone. -/
def demoCloneId : String := "cccccccccccccccccccccccc"

/-- First node of the concrete adventure: two forward options. -/
def demoNode0 : Node :=
  { createdAt := some 0, prev_option_index := none, prev_option_text := none,
    text := "Start", options := ["Continue", "Run"] }

/-- Concrete private adventure owned by demoOwnerId. -/
def demoAdventure : Adventure :=
  { owner_id := demoOwnerId
    title := "Test Adventure"
    synopsis := "A story"
    userPrompt := "prompt"
    createdAt := 0
    perspective := "Second Person"
    max_levels := 10
    min_words_per_level := 100
    max_words_per_level := 200
    is_public := false
    image_s3_bucket := none
    image_s3_key := none
    clone_of := none
    nodes := [demoNode0] }

/-- Concrete adventures collection holding one document. -/
def demoStore : AdvStore := [(demoAdventureId, demoAdventure)]

/-- Concrete users collection: a regular owner and an admin. -/
def demoUsers : UserStore :=
  [(demoOwnerId, { email := "user@test.com", role := "user" }),
   (demoAdminId, { email := "admin@test.com", role := "admin" })]

/-- The node a successful continue call appends, named for the statements
about continue_adventure: generator output for text and options, the
selected index as prev_option_index, and the literal text of the chosen
option as prev_option_text. -/
def mkContinueNode (A : Adventure) (s sel : Int) (gen : String × List String) : Node :=
  { createdAt := none
    prev_option_index := some sel
    prev_option_text := some ((A.nodes.getD s.toNat defaultNode).options.getD sel.toNat "")
    text := gen.1
    options := gen.2 }

/-- Concrete stand-in for the external SHA-256 digest. -/
def demoDigest : String → String := fun s => "sha256:" ++ s

/-- Concrete inactive key record. -/
def demoKeyInactive : APIKeyDoc :=
  { id := "k1", name := "inactive key", key_hash := "sha256:ak_inactive",
    scopes := ["read"], expires_at := none, created_at := 0, is_active := false,
    last_used := none }

/-- Concrete expired key record (expiry 10, checked against now = 50). -/
def demoKeyExpired : APIKeyDoc :=
  { id := "k2", name := "expired key", key_hash := "sha256:ak_expired",
    scopes := ["read"], expires_at := some 10, created_at := 0, is_active := true,
    last_used := none }

/-- Concrete active key record without expiry. -/
def demoKeyLive : APIKeyDoc :=
  { id := "k3", name := "live key", key_hash := "sha256:ak_live",
    scopes := ["read", "write"], expires_at := none, created_at := 0,
    is_active := true, last_used := none }

/-- Concrete api_keys collection. -/
def demoKeys : List APIKeyDoc := [demoKeyInactive, demoKeyExpired, demoKeyLive]

/-- Concrete generator output used to start the demo adventure. -/
def demoStory : NewStory :=
  { title := "T", synopsis := "S", text := "Start", options := ["a", "b"] }

/-- Concrete single continuation step: option 1 from node 0. -/
def demoStep : ContStep := { start_from := 0, selected := 1, gen := ("next", ["c"]) }

/-- First node of the demo adventure as start_adventure persists it. -/
def demoStartNode : Node :=
  { createdAt := some 3, prev_option_index := none, prev_option_text := none,
    text := "Start", options := ["a", "b"] }

/-- Node appended by the demo continuation step. -/
def demoNextNode : Node :=
  { createdAt := none, prev_option_index := some 1, prev_option_text := some "b",
    text := "next", options := ["c"] }

/-- The demo adventure as persisted by start_adventure. -/
def demoStartedAdventure : Adventure :=
  { owner_id := demoOwnerId, title := "T", synopsis := "S", userPrompt := "p",
    createdAt := 3, perspective := "Second Person", max_levels := 10,
    min_words_per_level := 100, max_words_per_level := 200, is_public := false,
    image_s3_bucket := none, image_s3_key := none, clone_of := none,
    nodes := [demoStartNode] }

/-- Store contents after starting the demo adventure and running the demo
continuation step. -/
def demoFinalStore : AdvStore :=
  [(demoAdventureId, { demoStartedAdventure with nodes := [demoStartNode, demoNextNode] })]

/-!
Store-level helper lemmas.
-/

/-- Reading back the id that modify_adventure rewrote sees the rewritten
document. -/
theorem find_modify_self (store : AdvStore) (aid : String) (f : Adventure → Adventure) :
    find_adventure (modify_adventure store aid f) aid = (find_adventure store aid).map f := by
  induction store with
  | nil => rfl
  | cons p rest ih =>
      obtain ⟨k, a⟩ := p
      by_cases hk : k = aid
      · subst hk
        simp [modify_adventure, find_adventure]
      · simp [modify_adventure, find_adventure, beq_iff_eq, hk, ih]

/-- modify_adventure leaves every other id untouched. -/
theorem find_modify_ne (store : AdvStore) (aid bid : String) (f : Adventure → Adventure)
    (h : bid ≠ aid) :
    find_adventure (modify_adventure store aid f) bid = find_adventure store bid := by
  induction store with
  | nil => rfl
  | cons p rest ih =>
      obtain ⟨k, a⟩ := p
      by_cases hk : k = aid
      · have hab : ¬ aid = bid := fun he => h he.symm
        simp [modify_adventure, find_adventure, beq_iff_eq, hk, hab]
      · simp [modify_adventure, find_adventure, beq_iff_eq, hk, ih]

/-- Two rewrites of the same id compose. -/
theorem modify_modify (store : AdvStore) (aid : String) (f g : Adventure → Adventure) :
    modify_adventure (modify_adventure store aid f) aid g =
      modify_adventure store aid (fun a => g (f a)) := by
  induction store with
  | nil => rfl
  | cons p rest ih =>
      obtain ⟨k, a⟩ := p
      by_cases hk : k = aid
      · subst hk
        simp [modify_adventure]
      · simp [modify_adventure, beq_iff_eq, hk, ih]

/-- modify_adventure only looks at the function extensionally. -/
theorem modify_congr (store : AdvStore) (aid : String) (f g : Adventure → Adventure)
    (h : ∀ a, f a = g a) :
    modify_adventure store aid f = modify_adventure store aid g := by
  induction store with
  | nil => rfl
  | cons p rest ih =>
      obtain ⟨k, a⟩ := p
      by_cases hk : k = aid
      · subst hk
        simp [modify_adventure, h a]
      · simp [modify_adventure, beq_iff_eq, hk, ih]

/-- Inserting under an id the store does not hold yet makes the new document
visible under that id. -/
theorem find_insert_self (store : AdvStore) (newId : String) (a : Adventure)
    (h : find_adventure store newId = none) :
    find_adventure (insert_adventure store newId a) newId = some a := by
  induction store with
  | nil => simp [insert_adventure, find_adventure]
  | cons p rest ih =>
      obtain ⟨k, b⟩ := p
      by_cases hk : k = newId
      · subst hk
        simp [find_adventure] at h
      · simp [find_adventure, insert_adventure, beq_iff_eq, hk] at h ⊢
        exact ih h

/-- An in-range read through a mapped list is the image of the read. -/
theorem getD_map_of_lt {α β : Type} (f : α → β) (l : List α) (i : Nat) (d : α) (d2 : β)
    (h : i < l.length) : (l.map f).getD i d2 = f (l.getD i d) := by
  induction l generalizing i with
  | nil => simp at h
  | cons x xs ih =>
      cases i with
      | zero => rfl
      | succ n =>
          have hn : n < xs.length := by simpa using h
          simpa [List.getD] using ih n hn

/-- An ownership check that returns an adventure returned the stored
document. -/
theorem gafu_ok_inv {store : AdvStore} {users : UserStore} {aid uid : String} {A : Adventure}
    (h : get_adventure_for_user store users aid uid = .ok A) :
    get_adventure_by_id store aid = some A := by
  unfold get_adventure_for_user at h
  rcases hg : get_adventure_by_id store aid with _ | B <;> rw [hg] at h
  · simp at h
  · repeat' split at h
    all_goals simp_all

/-!
Theorems for the claims, in claim order, with their witnesses.
-/

/-- C1: the ownership check grants access exactly when the caller is an
admin, or the adventure is public, or the caller is the owner; the result is
three-way, NotFound when no document matches the id, Forbidden when the rule
denies, and Ok carrying the adventure otherwise. -/
theorem C1_ownership_check (store : AdvStore) (users : UserStore) (aid uid : String) :
    get_adventure_for_user store users aid uid =
      match get_adventure_by_id store aid with
      | none => AccessResult.notFound
      | some A =>
          if is_user_admin users uid || A.is_public || (A.owner_id == uid)
          then AccessResult.ok A else AccessResult.forbidden := by
  unfold get_adventure_for_user
  cases hg : get_adventure_by_id store aid with
  | none => rfl
  | some A =>
      cases hadm : is_user_admin users uid <;>
        cases hp : A.is_public <;>
          by_cases ho : A.owner_id = uid <;>
            simp [hadm, hp, ho, beq_iff_eq]

/-- C2, evaluation at the failing input: demoAdminId is an admin and not the
owner, the ownership check lets the admin through, yet the delete handler
then requires the caller to equal the owner, answers 401 and leaves the
store unchanged. -/
theorem C2_admin_delete_denied :
    is_user_admin demoUsers demoAdminId = true ∧
    demoAdminId ≠ demoAdventure.owner_id ∧
    get_adventure_for_user demoStore demoUsers demoAdventureId demoAdminId =
      .ok demoAdventure ∧
    adventure_delete demoStore demoUsers demoAdventureId demoAdminId =
      (.unauthorized, demoStore) := by
  refine ⟨by decide, by decide, by decide, by decide⟩

/-- C3, evaluation at failing inputs: a credential matching neither shape,
an opaque-shaped credential failing verification, and a token-shaped
credential failing decode are all surfaced as 500 responses, because the
generic except handler of get_current_user_or_api_key catches its own 401
HTTPExceptions and re-raises them as a server error. -/
theorem C3_auth_failures_surface_500 :
    get_current_user_or_api_key (fun _ => none) (fun s => "sha256:" ++ s) [] 0
        (.completed true) "garbage" =
      .httpError 500 "Authentication error: 401: Invalid authentication token or API key" ∧
    get_current_user_or_api_key (fun _ => none) (fun s => "sha256:" ++ s) [] 0
        (.completed true) "ak_unknown" =
      .httpError 500 "Authentication error: 401: Invalid API key: Invalid API key" ∧
    get_current_user_or_api_key (fun _ => none) (fun s => "sha256:" ++ s) [] 0
        (.completed true) "eyJmalformed" =
      .httpError 500 "Authentication error: 401: Invalid authentication token or API key" := by
  refine ⟨by decide, by decide, by decide⟩

/-- C4: on an accessible adventure, a start index outside the node range, or
a selected option outside the option range of the start node, is answered
with the corresponding bad-request error and the store comes back unchanged,
so no node is appended. -/
theorem C4_continue_range_validation (store : AdvStore) (users : UserStore)
    (gen : String × List String) (aid uid : String) (s sel : Int) (A : Adventure)
    (hA : get_adventure_for_user store users aid uid = .ok A) :
    (¬ (0 ≤ s ∧ s < (A.nodes.length : Int)) →
        continue_adventure store users gen aid uid s sel = (.nodeOutOfRange s, store)) ∧
    ((0 ≤ s ∧ s < (A.nodes.length : Int)) →
      ¬ (0 ≤ sel ∧ sel < (((A.nodes.getD s.toNat defaultNode).options.length : Int))) →
        continue_adventure store users gen aid uid s sel = (.optionOutOfRange sel, store)) := by
  constructor
  · intro hs
    have hs2 : s < 0 ∨ (A.nodes.length : Int) ≤ s := by
      by_contra hc
      push_neg at hc
      exact hs ⟨by omega, by omega⟩
    unfold continue_adventure
    rw [hA]
    dsimp only
    rw [if_pos (show (A.nodes.length : Int) < s + 1 ∨ s < 0 by omega)]
  · intro hs hsel
    have hsel2 : sel < 0 ∨
        (((A.nodes.getD s.toNat defaultNode).options.length : Int)) ≤ sel := by
      by_contra hc
      push_neg at hc
      exact hsel ⟨by omega, by omega⟩
    unfold continue_adventure
    rw [hA]
    dsimp only
    rw [if_neg (show ¬ ((A.nodes.length : Int) < s + 1 ∨ s < 0) by omega)]
    rw [if_pos (show (((A.nodes.getD s.toNat defaultNode).options.length : Int)) < sel + 1 ∨
      sel < 0 by omega)]

/-- Witness for C4 at the concrete store: node index 5 on a one-node
adventure and option 5 on a two-option node are both rejected without any
change to the store. -/
theorem C4_witness :
    continue_adventure demoStore demoUsers ("t", ["x"]) demoAdventureId demoOwnerId 5 0 =
      (.nodeOutOfRange 5, demoStore) ∧
    continue_adventure demoStore demoUsers ("t", ["x"]) demoAdventureId demoOwnerId 0 5 =
      (.optionOutOfRange 5, demoStore) :=
  ⟨(C4_continue_range_validation demoStore demoUsers ("t", ["x"]) demoAdventureId demoOwnerId
      5 0 demoAdventure (by decide)).1 (by decide),
   (C4_continue_range_validation demoStore demoUsers ("t", ["x"]) demoAdventureId demoOwnerId
      0 5 demoAdventure (by decide)).2 (by decide) (by decide)⟩

/-- On an existing adventure with a well-formed id and a non-negative index,
truncation is the rewrite of that document to the prefix of its nodes. -/
theorem truncate_eq_modify (store : AdvStore) (aid : String) (A : Adventure) (k : Int)
    (hval : ObjectId_is_valid aid = true) (hk : 0 ≤ k)
    (hA : get_adventure_by_id store aid = some A) :
    truncate_adventure store aid k =
      modify_adventure store aid (fun a => { a with nodes := A.nodes.take k.toNat }) := by
  unfold truncate_adventure
  rw [hA]
  simp [hval, show ¬ k < 0 by omega]

/-- C5: for an existing adventure and any index k at least 0, truncation
replaces the node sequence by its prefix of length k, the result has length
min k len, and truncating twice equals truncating once. -/
theorem C5_truncate_prefix_idempotent (store : AdvStore) (aid : String) (A : Adventure)
    (k : Int) (hA : get_adventure_by_id store aid = some A) (hk : 0 ≤ k) :
    get_adventure_by_id (truncate_adventure store aid k) aid =
      some { A with nodes := A.nodes.take k.toNat } ∧
    (A.nodes.take k.toNat).length = min k.toNat A.nodes.length ∧
    truncate_adventure (truncate_adventure store aid k) aid k =
      truncate_adventure store aid k := by
  have hval : ObjectId_is_valid aid = true := by
    by_contra hv
    rw [Bool.not_eq_true] at hv
    simp [get_adventure_by_id, hv] at hA
  have hfind : find_adventure store aid = some A := by
    simpa [get_adventure_by_id, hval] using hA
  have ht := truncate_eq_modify store aid A k hval hk hA
  have hfind2 : find_adventure (truncate_adventure store aid k) aid =
      some { A with nodes := A.nodes.take k.toNat } := by
    rw [ht, find_modify_self, hfind]
    rfl
  have hgab2 : get_adventure_by_id (truncate_adventure store aid k) aid =
      some { A with nodes := A.nodes.take k.toNat } := by
    simp [get_adventure_by_id, hval, hfind2]
  refine ⟨hgab2, List.length_take k.toNat A.nodes, ?_⟩
  have ht2 := truncate_eq_modify (truncate_adventure store aid k) aid
    ({ A with nodes := A.nodes.take k.toNat }) k hval hk hgab2
  rw [ht2]
  conv_lhs => rw [ht]
  rw [modify_modify]
  conv_rhs => rw [ht]
  refine modify_congr _ _ _ _ (fun a => ?_)
  simp [List.take_take]

/-- Witness for C5 at the concrete store, truncating to index 1. -/
theorem C5_witness :
    get_adventure_by_id (truncate_adventure demoStore demoAdventureId 1) demoAdventureId =
      some { demoAdventure with nodes := demoAdventure.nodes.take (Int.toNat 1) } ∧
    (demoAdventure.nodes.take (Int.toNat 1)).length =
      min (Int.toNat 1) demoAdventure.nodes.length ∧
    truncate_adventure (truncate_adventure demoStore demoAdventureId 1) demoAdventureId 1 =
      truncate_adventure demoStore demoAdventureId 1 :=
  C5_truncate_prefix_idempotent demoStore demoAdventureId demoAdventure 1 (by decide) (by decide)

/-- A continue call that returned ok found the adventure, and the updated
store holds exactly the old node list with the generated node appended;
every other id is untouched. -/
theorem continue_ok_effect (store : AdvStore) (users : UserStore)
    (gen : String × List String) (aid uid : String) (s sel : Int) (r : String)
    (i : Int) (store1 : AdvStore)
    (h : continue_adventure store users gen aid uid s sel = (.ok r i, store1)) :
    ∃ A, ObjectId_is_valid aid = true ∧ find_adventure store aid = some A ∧
      find_adventure store1 aid =
        some { A with nodes := A.nodes ++ [mkContinueNode A s sel gen] } ∧
      ∀ bid, bid ≠ aid → find_adventure store1 bid = find_adventure store bid := by
  unfold continue_adventure at h
  rcases hg : get_adventure_for_user store users aid uid with _ | _ | A <;> rw [hg] at h
  · simp at h
  · simp at h
  · have hgab := gafu_ok_inv hg
    have hval : ObjectId_is_valid aid = true := by
      by_contra hv
      rw [Bool.not_eq_true] at hv
      simp [get_adventure_by_id, hv] at hgab
    have hfind : find_adventure store aid = some A := by
      simpa [get_adventure_by_id, hval] using hgab
    dsimp only at h
    by_cases h1 : ((A.nodes.length : Int) < s + 1 ∨ s < 0)
    · rw [if_pos h1] at h
      simp at h
    · rw [if_neg h1] at h
      by_cases h2 : (((A.nodes.getD s.toNat defaultNode).options.length : Int) < sel + 1 ∨
          sel < 0)
      · rw [if_pos h2] at h
        simp at h
      · rw [if_neg h2] at h
        have hst : update_adventure_nodes store aid (mkContinueNode A s sel gen) = store1 :=
          congrArg Prod.snd h
        refine ⟨A, hval, hfind, ?_, ?_⟩
        · rw [← hst]
          unfold update_adventure_nodes
          rw [if_pos hval, find_modify_self, hfind]
          rfl
        · intro bid hbid
          rw [← hst]
          unfold update_adventure_nodes
          rw [if_pos hval, find_modify_ne _ _ _ _ hbid]

/-- A run of continue calls that all succeed maps the prev_option_index
sequence of the stored adventure to the old sequence followed by the chosen
option of each step, in order. -/
theorem run_continuations_effect (users : UserStore) (aid uid : String)
    (steps : List ContStep) :
    ∀ (store final : AdvStore) (A : Adventure),
      find_adventure store aid = some A →
      run_continuations users aid uid store steps = some final →
      ∃ A2, find_adventure final aid = some A2 ∧
        A2.nodes.map Node.prev_option_index =
          A.nodes.map Node.prev_option_index ++
            steps.map (fun st => some st.selected) := by
  induction steps with
  | nil =>
      intro store final A hA hrun
      simp only [run_continuations] at hrun
      injection hrun with hsf
      subst hsf
      exact ⟨A, hA, by simp⟩
  | cons s rest ih =>
      intro store final A hA hrun
      rw [run_continuations] at hrun
      rcases hc : continue_adventure store users s.gen aid uid s.start_from s.selected with
        ⟨res, st1⟩
      rw [hc] at hrun
      cases res with
      | ok r i =>
          obtain ⟨A1, hval, hfindA1, hfind1, hother⟩ :=
            continue_ok_effect _ _ _ _ _ _ _ _ _ _ hc
          rw [hA] at hfindA1
          injection hfindA1 with hA1
          subst hA1
          obtain ⟨A2, hfinal, hmap⟩ := ih st1 final _ hfind1 hrun
          refine ⟨A2, hfinal, ?_⟩
          rw [hmap]
          simp [mkContinueNode]
      | notFound => simp at hrun
      | unauthorized => simp at hrun
      | nodeOutOfRange idx => simp at hrun
      | optionOutOfRange idx => simp at hrun

/-- C6: every successful continue call appends exactly one node, at the end
of the sequence, with prev_option_index the selected index and
prev_option_text the literal chosen-option text; and after a run of N
successful continuations on a freshly started adventure the node list has
length N+1, node 0 has no prev_option_index and node i+1 carries the option
chosen at step i. -/
theorem C6_continue_append_discipline (store0 : AdvStore) (users : UserStore)
    (uid aid : String) (story : NewStory) (prompt persp : String)
    (ml mw xw now : Nat) (steps : List ContStep) (final : AdvStore)
    (hval : ObjectId_is_valid aid = true)
    (hfresh : find_adventure store0 aid = none)
    (hrun : run_continuations users aid uid
        (start_adventure store0 uid aid story prompt persp ml mw xw now).2 steps =
      some final) :
    (∀ (store store1 : AdvStore) (A : Adventure) (gen : String × List String)
        (s sel : Int) (r : String) (i : Int),
        find_adventure store aid = some A →
        continue_adventure store users gen aid uid s sel = (.ok r i, store1) →
        find_adventure store1 aid =
          some { A with nodes := A.nodes ++ [mkContinueNode A s sel gen] } ∧
        (mkContinueNode A s sel gen).prev_option_index = some sel ∧
        (mkContinueNode A s sel gen).prev_option_text =
          some ((A.nodes.getD s.toNat defaultNode).options.getD sel.toNat "")) ∧
    ∃ A2, find_adventure final aid = some A2 ∧
      A2.nodes.length = steps.length + 1 ∧
      (A2.nodes.getD 0 defaultNode).prev_option_index = none ∧
      ∀ i, i < steps.length →
        (A2.nodes.getD (i + 1) defaultNode).prev_option_index =
          some ((steps.getD i defaultStep).selected) := by
  constructor
  · intro store store1 A gen s sel r i hfind hcont
    obtain ⟨A1, hval2, hfindA1, hfind1, hother⟩ :=
      continue_ok_effect _ _ _ _ _ _ _ _ _ _ hcont
    rw [hfind] at hfindA1
    injection hfindA1 with hA1
    subst hA1
    exact ⟨hfind1, rfl, rfl⟩
  · have hstart : ∃ B,
        find_adventure
          ((start_adventure store0 uid aid story prompt persp ml mw xw now).2) aid =
          some B ∧ B.nodes.map Node.prev_option_index = [none] := by
      unfold start_adventure
      dsimp only
      unfold update_adventure_nodes
      rw [if_pos hval, find_modify_self, find_insert_self store0 aid _ hfresh]
      exact ⟨_, rfl, rfl⟩
    obtain ⟨B, hB, hBmap⟩ := hstart
    obtain ⟨A2, hfinal, hmap⟩ := run_continuations_effect users aid uid steps _ final B hB hrun
    rw [hBmap] at hmap
    have hlen : A2.nodes.length = steps.length + 1 := by
      have hl := congrArg List.length hmap
      simp only [List.length_map, List.length_append, List.length_cons,
        List.length_nil] at hl
      omega
    refine ⟨A2, hfinal, hlen, ?_, ?_⟩
    · have h0 : (A2.nodes.map Node.prev_option_index).getD 0 none = none := by
        rw [hmap]
        rfl
      rw [getD_map_of_lt Node.prev_option_index A2.nodes 0 defaultNode none (by omega)] at h0
      exact h0
    · intro i hi
      have h1 : (A2.nodes.map Node.prev_option_index).getD (i + 1) none =
          some ((steps.getD i defaultStep).selected) := by
        rw [hmap]
        have hstep : ([(none : Option Int)] ++
            steps.map (fun st => some st.selected)).getD (i + 1) none =
            (steps.map (fun st => some st.selected)).getD i none := rfl
        rw [hstep, getD_map_of_lt _ steps i defaultStep none hi]
      rw [getD_map_of_lt Node.prev_option_index A2.nodes (i + 1) defaultNode none
        (by omega)] at h1
      exact h1

/-- Witness for C6: starting a demo adventure in an empty store and running
one successful continuation choosing option 1 yields two nodes, the first
with no prev_option_index and the second carrying option 1. -/
theorem C6_witness :
    (∀ (store store1 : AdvStore) (A : Adventure) (gen : String × List String)
        (s sel : Int) (r : String) (i : Int),
        find_adventure store demoAdventureId = some A →
        continue_adventure store demoUsers gen demoAdventureId demoOwnerId s sel =
          (.ok r i, store1) →
        find_adventure store1 demoAdventureId =
          some { A with nodes := A.nodes ++ [mkContinueNode A s sel gen] } ∧
        (mkContinueNode A s sel gen).prev_option_index = some sel ∧
        (mkContinueNode A s sel gen).prev_option_text =
          some ((A.nodes.getD s.toNat defaultNode).options.getD sel.toNat "")) ∧
    ∃ A2, find_adventure demoFinalStore demoAdventureId = some A2 ∧
      A2.nodes.length = [demoStep].length + 1 ∧
      (A2.nodes.getD 0 defaultNode).prev_option_index = none ∧
      ∀ i, i < [demoStep].length →
        (A2.nodes.getD (i + 1) defaultNode).prev_option_index =
          some (([demoStep].getD i defaultStep).selected) :=
  C6_continue_append_discipline [] demoUsers demoOwnerId demoAdventureId demoStory "p"
    "Second Person" 10 100 200 3 [demoStep] demoFinalStore (by decide) rfl (by decide)

/-- C7: verification rejects a wrong-marker key, an unknown digest, an
inactive key and an expired key, each with its own reason; the four attached
messages are pairwise distinct; and a key record without expiry never fails
with the expiry reason. -/
theorem C7_verify_distinct_rejections (digest : String → String)
    (keys : List APIKeyDoc) (now : Nat) (upd : UpdateOutcome) (api_key : String) :
    (startsWithMarker api_key "ak_" = false →
        verify_api_key digest keys now upd api_key = .failure .invalidFormat) ∧
    (startsWithMarker api_key "ak_" = true →
      find_by_hash keys (digest api_key) = none →
        verify_api_key digest keys now upd api_key = .failure .invalidKey) ∧
    (∀ kd, startsWithMarker api_key "ak_" = true →
      find_by_hash keys (digest api_key) = some kd → kd.is_active = false →
        verify_api_key digest keys now upd api_key = .failure .inactive) ∧
    (∀ kd t, startsWithMarker api_key "ak_" = true →
      find_by_hash keys (digest api_key) = some kd → kd.is_active = true →
      kd.expires_at = some t → t < now →
        verify_api_key digest keys now upd api_key = .failure .expired) ∧
    (∀ kd, find_by_hash keys (digest api_key) = some kd → kd.expires_at = none →
        verify_api_key digest keys now upd api_key ≠ .failure .expired) ∧
    List.Pairwise (fun a b => VerifyError.message a ≠ VerifyError.message b)
      [VerifyError.invalidFormat, VerifyError.invalidKey, VerifyError.inactive,
       VerifyError.expired] := by
  refine ⟨?_, ?_, ?_, ?_, ?_, by decide⟩
  · intro hsw
    simp [verify_api_key, hsw]
  · intro hsw hfind
    simp [verify_api_key, hsw, hfind]
  · intro kd hsw hfind hact
    simp [verify_api_key, hsw, hfind, hact]
  · intro kd t hsw hfind hact hexp hlt
    simp [verify_api_key, hsw, hfind, hact, is_expired_at, hexp, hlt]
  · intro kd hfind hnone
    cases hsw : startsWithMarker api_key "ak_"
    · simp [verify_api_key, hsw]
    · cases hact : kd.is_active
      · simp [verify_api_key, hsw, hfind, hact]
      · cases upd <;> simp [verify_api_key, hsw, hfind, hact, is_expired_at, hnone]

/-- Witness for C7 on the concrete key collection at time 50. -/
theorem C7_witness :
    verify_api_key demoDigest demoKeys 50 (.completed true) "bad" =
      .failure .invalidFormat ∧
    verify_api_key demoDigest demoKeys 50 (.completed true) "ak_missing" =
      .failure .invalidKey ∧
    verify_api_key demoDigest demoKeys 50 (.completed true) "ak_inactive" =
      .failure .inactive ∧
    verify_api_key demoDigest demoKeys 50 (.completed true) "ak_expired" =
      .failure .expired ∧
    verify_api_key demoDigest demoKeys 50 (.completed true) "ak_live" ≠
      .failure .expired :=
  ⟨(C7_verify_distinct_rejections demoDigest demoKeys 50 (.completed true) "bad").1
      (by decide),
   (C7_verify_distinct_rejections demoDigest demoKeys 50 (.completed true)
      "ak_missing").2.1 (by decide) (by decide),
   (C7_verify_distinct_rejections demoDigest demoKeys 50 (.completed true)
      "ak_inactive").2.2.1 demoKeyInactive (by decide) (by decide) (by decide),
   (C7_verify_distinct_rejections demoDigest demoKeys 50 (.completed true)
      "ak_expired").2.2.2.1 demoKeyExpired 10 (by decide) (by decide) (by decide)
      (by decide) (by decide),
   (C7_verify_distinct_rejections demoDigest demoKeys 50 (.completed true)
      "ak_live").2.2.2.2.1 demoKeyLive (by decide) (by decide)⟩

/-- Counterexample for C8: on a valid, active, never-expiring key, a raising
last_used update makes the whole verification fail instead of succeeding
with the key metadata. -/
theorem C8_counterexample :
    verify_api_key demoDigest demoKeys 50 (.raises "connection lost") "ak_live" =
      .updateException "connection lost" ∧
    verify_api_key demoDigest demoKeys 50 (.raises "connection lost") "ak_live" ≠
      .success { key_id := "k3", name := "live key", scopes := ["read", "write"],
                 created_at := 0, expires_at := none } := by
  exact ⟨by decide, by decide⟩

/-- C8 amended: the source never inspects the result of the last_used
update, so an update that completes without persisting anything still lets
verification succeed with the key metadata; but an update that raises makes
the exception propagate and the verification call fail. -/
theorem C8_last_used_best_effort (digest : String → String) (keys : List APIKeyDoc)
    (now : Nat) (api_key : String) (kd : APIKeyDoc)
    (hsw : startsWithMarker api_key "ak_" = true)
    (hfind : find_by_hash keys (digest api_key) = some kd)
    (hact : kd.is_active = true)
    (hexp : is_expired_at kd.expires_at now = false) :
    (∀ m, verify_api_key digest keys now (.completed m) api_key =
        .success { key_id := kd.id, name := kd.name, scopes := kd.scopes,
                   created_at := kd.created_at, expires_at := kd.expires_at }) ∧
    (∀ msg, verify_api_key digest keys now (.raises msg) api_key =
        .updateException msg) := by
  constructor <;> intro x <;> simp [verify_api_key, hsw, hfind, hact, hexp]

/-- Witness for the amended C8 on the concrete live key. -/
theorem C8_witness :
    (∀ m, verify_api_key demoDigest demoKeys 50 (.completed m) "ak_live" =
        .success { key_id := "k3", name := "live key", scopes := ["read", "write"],
                   created_at := 0, expires_at := none }) ∧
    (∀ msg, verify_api_key demoDigest demoKeys 50 (.raises msg) "ak_live" =
        .updateException msg) :=
  C8_last_used_best_effort demoDigest demoKeys 50 "ak_live" demoKeyLive (by decide)
    (by decide) (by decide) (by decide)

/-- C9, evaluation of the failing code: clone_adventure never returns ok and
never changes the store, because create_adventure raises NameError on the
undefined module global; at the concrete accessible adventure the call
surfaces that unhandled exception with the store untouched. -/
theorem C9_clone_never_creates :
    (∀ (store : AdvStore) (users : UserStore) (aid uid newId : String) (now : Nat),
        (clone_adventure store users aid uid newId now).2 = store ∧
        ∀ rid, (clone_adventure store users aid uid newId now).1 ≠ .ok rid) ∧
    clone_adventure demoStore demoUsers demoAdventureId demoOwnerId demoCloneId 7 =
      (.unhandledException "NameError: name adventure_collection is not defined",
       demoStore) := by
  constructor
  · intro store users aid uid newId now
    cases hg : get_adventure_for_user store users aid uid <;>
      simp [clone_adventure, hg, create_adventure, adventure_collection_module_global]
  · decide

/-- C10: an admin delete-user request for an existing other user reaches the
undefined helper user_service.delete_user, is surfaced as an internal error,
and leaves the user store unchanged. -/
theorem C10_admin_delete_user_internal_error (users : UserStore)
    (target admin_id : String) (u : UserDoc)
    (hne : target ≠ admin_id)
    (hu : get_user_by_id users target = some u) :
    delete_user_admin users target admin_id =
      (.internalError
        "Failed to delete user: module app.services.user_service has no attribute delete_user",
       users) := by
  unfold delete_user_admin
  rw [if_neg (by simp [beq_iff_eq, hne])]
  rw [hu]
  rfl

/-- Witness for C10: the admin deleting the concrete other user gets the
internal error and the user store is unchanged. -/
theorem C10_witness :
    delete_user_admin demoUsers demoOwnerId demoAdminId =
      (.internalError
        "Failed to delete user: module app.services.user_service has no attribute delete_user",
       demoUsers) :=
  C10_admin_delete_user_internal_error demoUsers demoOwnerId demoAdminId
    { email := "user@test.com", role := "user" } (by decide) (by decide)

end AIAdventure
